import Mathlib

/-!
Verification development for the GUI watermarking application
(src/Watermark_app.py and src/main.py).

The two Python files are near-identical Tkinter/Pillow applications.  The
compositing core (method add_watermark) is embedded here pixel-exactly:
images are rectangular rasters of RGBA pixels, Pillow operations
(convert, Image.new, alpha_composite, ImageDraw.text, thumbnail) are
translated to pure Lean functions per Pillow's documented per-pixel
semantics, and text rasterization (a property of the font backend, not of
this repository) is an explicit parameter supplying the measured bounding
box and the glyph coverage mask.  GUI plumbing (Tk widgets, dialogs,
canvas display) is out of scope and appears only as the fields of the
application state it stores.
-/

namespace WM

/-- One raster pixel.  Channel values are intended in [0, 255]; an RGB-mode
pixel is represented with its alpha field normalized to 255 (Pillow stores
no alpha byte for RGB; the convert operations below keep this convention). -/
structure Pixel where
  r : Nat
  g : Nat
  b : Nat
  a : Nat
deriving DecidableEq, Repr

/-- The two pixel modes the application ever produces or loads. -/
inductive Mode
  | RGB
  | RGBA
deriving DecidableEq, Repr

/-- An in-memory image: mode, size, and row-major pixel data
(data.length = width * height for every well-formed image). -/
structure Image where
  mode : Mode
  width : Nat
  height : Nat
  data : List Pixel
deriving DecidableEq, Repr

instance : Inhabited Pixel := ⟨⟨0, 0, 0, 0⟩⟩

instance : Inhabited Image := ⟨⟨Mode.RGB, 0, 0, []⟩⟩

/-- PIL Image.copy(): returns a copy of the image value. -/
def Image.copy (img : Image) : Image := img

/-- Set a pixel's alpha channel. -/
def Pixel.withAlpha (p : Pixel) (a : Nat) : Pixel := { p with a := a }

/-- PIL convert("RGBA"): an RGB image gains an explicit opaque alpha
channel; an RGBA image is returned unchanged (as a new object). -/
def Image.convertRGBA (img : Image) : Image :=
  { mode := Mode.RGBA, width := img.width, height := img.height,
    data := match img.mode with
      | Mode.RGB => img.data.map (fun p => p.withAlpha 255)
      | Mode.RGBA => img.data }

/-- PIL convert("RGB"): the alpha channel is dropped (no background
blending); the stored alpha is normalized to the RGB convention 255. -/
def Image.convertRGB (img : Image) : Image :=
  { mode := Mode.RGB, width := img.width, height := img.height,
    data := img.data.map (fun p => p.withAlpha 255) }

/-- PIL Image.new("RGBA", (w, h), c): a w by h image filled with c. -/
def Image.newRGBA (w h : Nat) (c : Pixel) : Image :=
  ⟨Mode.RGBA, w, h, List.replicate (w * h) c⟩

/-- Pillow's SHIFTFORDIV255 macro: a fast rounded division by 255 used by
alpha_composite (AlphaComposite.c). -/
def shiftForDiv255 (a : Nat) : Nat := ((a >>> 8) + a) >>> 8

/-- Pillow's per-pixel integer "over" operator (AlphaComposite.c,
PRECISION_BITS = 7).  src is the overlay pixel, dst the base pixel; a
fully transparent overlay pixel leaves the base pixel bit-identical. -/
def compositePixel (dst src : Pixel) : Pixel :=
  if src.a = 0 then dst
  else
    let blend := dst.a * (255 - src.a)
    let outa255 := src.a * 255 + blend
    let coef1 := src.a * 255 * 255 * 128 / outa255
    let coef2 := 255 * 128 - coef1
    let ch := fun (s d : Nat) => shiftForDiv255 (s * coef1 + d * coef2 + 128 * 128) >>> 7
    ⟨ch src.r dst.r, ch src.g dst.g, ch src.b dst.b, shiftForDiv255 (outa255 + 128)⟩

/-- PIL Image.alpha_composite(dst, src): pixelwise "over" of src onto dst.
Pillow requires both images RGBA and of equal size; every call site in
this development satisfies that. -/
def Image.alphaComposite (dst src : Image) : Image :=
  ⟨Mode.RGBA, dst.width, dst.height, List.zipWith compositePixel dst.data src.data⟩

/-- A font handle: either a loaded truetype font or the built-in default
bitmap font of ImageFont.load_default(). -/
inductive Font
  | truetype (name : String) (size : Nat)
  | defaultBitmap
deriving DecidableEq, Repr

/-- The font environment: whether ImageFont.truetype(name, size) succeeds
(true) or raises IOError (false).  Abstracts the host's font files. -/
def FontEnv := String → Nat → Bool

/-- Lines 116-119 of Watermark_app.py / 87-90 of main.py: try
ImageFont.truetype("arial.ttf", 30), on IOError fall back to
ImageFont.load_default().  Total in every environment. -/
def resolveFont (env : FontEnv) : Font :=
  if env "arial.ttf" 30 then Font.truetype "arial.ttf" 30 else Font.defaultBitmap

/-- One covered position of a rasterized text run: offset (dx, dy) from
the drawing origin and a coverage value in [0, 255] (255 = fully inked,
intermediate values are antialiased edges). -/
structure CovPt where
  dx : Int
  dy : Int
  cov : Nat
deriving DecidableEq, Repr

/-- What the font backend reports for a text run: the textbbox((0,0), ...)
offsets (left, top, right, bottom) and the glyph coverage mask. -/
structure Raster where
  left : Int
  top : Int
  right : Int
  bottom : Int
  coverage : List CovPt
deriving DecidableEq, Repr

/-- The text rasterization backend (FreeType or the bitmap font renderer):
a function of the resolved font and the text only.  External to the
repository, hence a parameter of the embedding. -/
def Rasterizer := Font → String → Raster

/-- The ink pixel ImageDraw.text leaves on a fully transparent RGBA layer
at a position with glyph coverage cov: the fill color with effective
alpha opacity * cov / 255 (RGBA ink blended through the coverage mask
over alpha 0). -/
def inkPixel (color : Nat × Nat × Nat) (opacity cov : Nat) : Pixel :=
  ⟨color.1, color.2.1, color.2.2, opacity * cov / 255⟩

/-- Write one pixel if the coordinates fall inside the image; positions
off-canvas (including negative ones) are clipped away, as Pillow does. -/
def Image.putPixel (img : Image) (x y : Int) (p : Pixel) : Image :=
  if 0 ≤ x ∧ x < (img.width : Int) ∧ 0 ≤ y ∧ y < (img.height : Int) then
    { img with data := img.data.set (y.toNat * img.width + x.toNat) p }
  else img

/-- ImageDraw.text(position, text, fill=(r,g,b,opacity), font): stamp the
rasterized coverage mask onto the layer at the given anchor position.
The layer is fully transparent at every call site, so each covered pixel
becomes the ink pixel; off-canvas coverage is clipped. -/
def drawText (layer : Image) (pos : Int × Int) (color : Nat × Nat × Nat)
    (opacity : Nat) (r : Raster) : Image :=
  r.coverage.foldl
    (fun im c => im.putPixel (pos.1 + c.dx) (pos.2 + c.dy) (inkPixel color opacity c.cov))
    layer

/-- The anchor computed on lines 124-125 of Watermark_app.py (95-96 of
main.py): position = (width - text_width - 20, height - text_height - 20),
over the integers, with no clamping. -/
def anchorPosition (w h : Nat) (tw th : Int) : Int × Int :=
  ((w : Int) - tw - 20, (h : Int) - th - 20)

/-- Python str.strip() on the entry text: leading and trailing whitespace
removed (structural definition over the character list). -/
def pyStrip (s : String) : String :=
  String.mk (((s.data.dropWhile Char.isWhitespace).reverse.dropWhile Char.isWhitespace).reverse)

/-- The user-visible error dialogs (messagebox.showerror calls). -/
inductive UIErr
  | missingImage
  | emptyText
deriving DecidableEq, Repr

/-- The pixel-resampling backend of PIL thumbnail's resize step (bicubic
interpolation): external to the repository, a parameter of the embedding.
Arguments: the source image and the target width and height. -/
def Resample := Image → Nat → Nat → List Pixel

/-- round_aspect from PIL Image.thumbnail: of floor and ceil of the exact
ratio, pick the one with the smaller key (floor on ties, as Python's min
does), but never go below 1. -/
def roundAspect (number : ℚ) (key : Nat → ℚ) : Nat :=
  max (if key (⌊number⌋).toNat ≤ key (⌈number⌉).toNat
        then (⌊number⌋).toNat else (⌈number⌉).toNat) 1

/-- The target size PIL Image.thumbnail((tx, ty)) computes: unchanged when
the image already fits, otherwise scaled down preserving the aspect ratio
(exact rational arithmetic stands in for Python float division; callers
only pass decoded images, whose height is positive). -/
def thumbnailSize (tx ty w h : Nat) : Nat × Nat :=
  if tx ≥ w ∧ ty ≥ h then (w, h)
  else
    let aspect : ℚ := (w : ℚ) / (h : ℚ)
    if (tx : ℚ) / (ty : ℚ) ≥ aspect then
      (roundAspect ((ty : ℚ) * aspect) (fun n => |aspect - (n : ℚ) / (ty : ℚ)|), ty)
    else
      (tx, roundAspect ((tx : ℚ) / aspect)
            (fun n => if n = 0 then 0 else |aspect - (tx : ℚ) / (n : ℚ)|))

/-- PIL Image.thumbnail(size): in-place downscale to fit within size,
never upscaling; the resampled pixel data comes from the backend. -/
def pyThumbnail (resample : Resample) (size : Nat × Nat) (img : Image) : Image :=
  if size.1 ≥ img.width ∧ size.2 ≥ img.height then img
  else
    let sz := thumbnailSize size.1 size.2 img.width img.height
    ⟨img.mode, sz.1, sz.2, resample img sz.1 sz.2⟩

namespace WApp

/-- The mutable controller fields of WatermarkApp in src/Watermark_app.py
that the modeled actions read or write (Tk widget handles are omitted;
text_entry is the entry widget's current content, opacity_scale the
slider's current value). -/
structure AppState where
  original_image : Option Image
  image : Option Image
  text_color : Nat × Nat × Nat
  opacity_scale : Nat
  text_entry : String
deriving DecidableEq, Repr

/-- The state after __init__ (src/Watermark_app.py lines 35-66): no image
loaded, white text color, opacity slider at 255, placeholder entry text. -/
def init : AppState :=
  ⟨none, none, (255, 255, 255), 255, "Enter Watermark Text"⟩

/-- WatermarkApp.add_watermark (src/Watermark_app.py lines 98-132).
Returns the successor state and the error dialog shown, if any. -/
def add_watermark (env : FontEnv) (rast : Rasterizer) (s : AppState) :
    AppState × Option UIErr :=
  match s.original_image with
  | none => (s, some UIErr.missingImage)
  | some original_image =>
    let watermark_text := pyStrip s.text_entry
    if watermark_text = "" then (s, some UIErr.emptyText)
    else
      let image := original_image.copy.convertRGBA
      let txt_layer := Image.newRGBA image.width image.height ⟨255, 255, 255, 0⟩
      let font := resolveFont env
      let bbox := rast font watermark_text
      let text_width := bbox.right - bbox.left
      let text_height := bbox.bottom - bbox.top
      let position := anchorPosition image.width image.height text_width text_height
      let txt_layer2 := drawText txt_layer position s.text_color s.opacity_scale bbox
      ({ s with image := some ((image.alphaComposite txt_layer2).convertRGB) }, none)

/-- WatermarkApp.upload_image (src/Watermark_app.py lines 69-79): none
models a cancelled file dialog; otherwise the decoded image is
thumbnailed to (400, 400) in place and a copy becomes the working image. -/
def upload_image (resample : Resample) (s : AppState) (file : Option Image) : AppState :=
  match file with
  | none => s
  | some f =>
    let original_image := pyThumbnail resample (400, 400) f
    { s with original_image := some original_image,
             image := some original_image.copy }

/-- WatermarkApp.choose_color (src/Watermark_app.py lines 91-95): none
models a cancelled color dialog. -/
def choose_color (s : AppState) (color_code : Option (Nat × Nat × Nat)) : AppState :=
  match color_code with
  | none => s
  | some c => { s with text_color := c }

/-- WatermarkApp.save_image (src/Watermark_app.py lines 135-150): the
image handed to the file-save collaborator, or the error dialog. -/
def save_image (s : AppState) : Except UIErr Image :=
  match s.image with
  | none => Except.error UIErr.missingImage
  | some img => Except.ok img

/-- The user interactions that mutate the controller state. -/
inductive Event
  | upload (file : Option Image)
  | chooseColor (color_code : Option (Nat × Nat × Nat))
  | setOpacity (n : Nat)
  | setText (t : String)
  | watermark
  | save
deriving DecidableEq, Repr

/-- One UI event dispatched against the controller. -/
def step (env : FontEnv) (rast : Rasterizer) (resample : Resample)
    (s : AppState) : Event → AppState
  | Event.upload file => upload_image resample s file
  | Event.chooseColor c => choose_color s c
  | Event.setOpacity n => { s with opacity_scale := n }
  | Event.setText t => { s with text_entry := t }
  | Event.watermark => (add_watermark env rast s).1
  | Event.save => s

/-- The controller state after a session of UI events from the initial
state. -/
def run (env : FontEnv) (rast : Rasterizer) (resample : Resample)
    (events : List Event) : AppState :=
  events.foldl (step env rast resample) init

/-- An upload event carries a decoded raster, which has positive
dimensions (a 0-sized file does not decode). -/
def goodEvent : Event → Prop
  | Event.upload (some f) => 1 ≤ f.width ∧ 1 ≤ f.height
  | _ => True

instance : (e : Event) → Decidable (goodEvent e)
  | Event.upload none => inferInstanceAs (Decidable True)
  | Event.upload (some _) => inferInstanceAs (Decidable (_ ∧ _))
  | Event.chooseColor _ => inferInstanceAs (Decidable True)
  | Event.setOpacity _ => inferInstanceAs (Decidable True)
  | Event.setText _ => inferInstanceAs (Decidable True)
  | Event.watermark => inferInstanceAs (Decidable True)
  | Event.save => inferInstanceAs (Decidable True)

end WApp

namespace MainApp

/-- The mutable controller fields of WatermarkApp in src/main.py that the
modeled actions read or write. -/
structure AppState where
  image : Option Image
  text_entry : String
deriving DecidableEq, Repr

/-- The state after __init__ (src/main.py lines 33-55). -/
def init : AppState := ⟨none, "Enter Watermark Text"⟩

/-- WatermarkApp.add_watermark (src/main.py lines 69-104): like the
Watermark_app.py variant but with fixed white fully opaque fill, reading
the current image (not a preserved original) and replacing it with the
result. -/
def add_watermark (env : FontEnv) (rast : Rasterizer) (s : AppState) :
    AppState × Option UIErr :=
  match s.image with
  | none => (s, some UIErr.missingImage)
  | some img =>
    let watermark_text := pyStrip s.text_entry
    if watermark_text = "" then (s, some UIErr.emptyText)
    else
      let watermark_image := img.convertRGBA
      let txt_layer := Image.newRGBA watermark_image.width watermark_image.height ⟨255, 255, 255, 0⟩
      let font := resolveFont env
      let bbox := rast font watermark_text
      let text_width := bbox.right - bbox.left
      let text_height := bbox.bottom - bbox.top
      let position := anchorPosition watermark_image.width watermark_image.height text_width text_height
      let txt_layer2 := drawText txt_layer position (255, 255, 255) 255 bbox
      let watermarked_image := watermark_image.alphaComposite txt_layer2
      ({ s with image := some (watermarked_image.convertRGB) }, none)

/-- WatermarkApp.upload_image (src/main.py lines 57-67). -/
def upload_image (resample : Resample) (s : AppState) (file : Option Image) : AppState :=
  match file with
  | none => s
  | some f => { s with image := some (pyThumbnail resample (400, 400) f) }

/-- WatermarkApp.save_image (src/main.py lines 106-121). -/
def save_image (s : AppState) : Except UIErr Image :=
  match s.image with
  | none => Except.error UIErr.missingImage
  | some img => Except.ok img

/-- The user interactions that mutate the controller state. -/
inductive Event
  | upload (file : Option Image)
  | setText (t : String)
  | watermark
  | save
deriving DecidableEq, Repr

/-- One UI event dispatched against the controller. -/
def step (env : FontEnv) (rast : Rasterizer) (resample : Resample)
    (s : AppState) : Event → AppState
  | Event.upload file => upload_image resample s file
  | Event.setText t => { s with text_entry := t }
  | Event.watermark => (add_watermark env rast s).1
  | Event.save => s

/-- The controller state after a session of UI events from the initial
state. -/
def run (env : FontEnv) (rast : Rasterizer) (resample : Resample)
    (events : List Event) : AppState :=
  events.foldl (step env rast resample) init

/-- An upload event carries a decoded raster, which has positive
dimensions. -/
def goodEvent : Event → Prop
  | Event.upload (some f) => 1 ≤ f.width ∧ 1 ≤ f.height
  | _ => True

instance : (e : Event) → Decidable (goodEvent e)
  | Event.upload none => inferInstanceAs (Decidable True)
  | Event.upload (some _) => inferInstanceAs (Decidable (_ ∧ _))
  | Event.setText _ => inferInstanceAs (Decidable True)
  | Event.watermark => inferInstanceAs (Decidable True)
  | Event.save => inferInstanceAs (Decidable True)

end MainApp

/-!
A small buffer heap makes the Python object identities explicit, so that
"never mutates its input image" is a genuine frame property rather than a
convention of the pure model.  Every PIL call that documents a new image
object allocates a fresh reference; the in-place calls (ImageDraw drawing
on a layer) overwrite the buffer of an existing reference.
-/

/-- A heap of image buffers: references are allocated in order, so every
reference below next is live and everything at or above next is fresh. -/
structure Heap where
  next : Nat
  bufs : Nat → Image

/-- Allocate a fresh buffer; returns the new heap and the new reference. -/
def Heap.alloc (h : Heap) (img : Image) : Heap × Nat :=
  (⟨h.next + 1, fun r => if r = h.next then img else h.bufs r⟩, h.next)

/-- Overwrite the buffer behind an existing reference (in-place drawing). -/
def Heap.write (h : Heap) (ref : Nat) (img : Image) : Heap :=
  ⟨h.next, fun r => if r = ref then img else h.bufs r⟩

namespace WApp

/-- Heap-level transliteration of WatermarkApp.add_watermark from
src/Watermark_app.py (lines 98-132): .copy(), .convert("RGBA"),
Image.new and Image.alpha_composite allocate fresh buffers; draw.text
writes the text layer's buffer in place.  Returns the final heap, the
reference stored into self.image (if any), and the error dialog shown. -/
def add_watermark_refs (env : FontEnv) (rast : Rasterizer) (h : Heap)
    (original_image : Option Nat) (text_color : Nat × Nat × Nat)
    (opacity_scale : Nat) (text_entry : String) :
    Heap × Option Nat × Option UIErr :=
  match original_image with
  | none => (h, none, some UIErr.missingImage)
  | some oref =>
    let watermark_text := pyStrip text_entry
    if watermark_text = "" then (h, none, some UIErr.emptyText)
    else
      let copyPair := h.alloc ((h.bufs oref).copy)
      let h1 := copyPair.1
      let imgPair := h1.alloc ((h1.bufs copyPair.2).convertRGBA)
      let h2 := imgPair.1
      let image := h2.bufs imgPair.2
      let layerPair := h2.alloc (Image.newRGBA image.width image.height ⟨255, 255, 255, 0⟩)
      let h3 := layerPair.1
      let font := resolveFont env
      let bbox := rast font watermark_text
      let position := anchorPosition image.width image.height
        (bbox.right - bbox.left) (bbox.bottom - bbox.top)
      let h4 := h3.write layerPair.2
        (drawText (h3.bufs layerPair.2) position text_color opacity_scale bbox)
      let compPair := h4.alloc ((h4.bufs imgPair.2).alphaComposite (h4.bufs layerPair.2))
      let h5 := compPair.1
      let resPair := h5.alloc ((h5.bufs compPair.2).convertRGB)
      (resPair.1, some resPair.2, none)

end WApp

namespace MainApp

/-- Heap-level transliteration of WatermarkApp.add_watermark from
src/main.py (lines 69-104): as in the other variant but without the
.copy() step and with fixed white fully opaque fill. -/
def add_watermark_refs (env : FontEnv) (rast : Rasterizer) (h : Heap)
    (image : Option Nat) (text_entry : String) :
    Heap × Option Nat × Option UIErr :=
  match image with
  | none => (h, none, some UIErr.missingImage)
  | some iref =>
    let watermark_text := pyStrip text_entry
    if watermark_text = "" then (h, none, some UIErr.emptyText)
    else
      let imgPair := h.alloc ((h.bufs iref).convertRGBA)
      let h1 := imgPair.1
      let watermark_image := h1.bufs imgPair.2
      let layerPair := h1.alloc
        (Image.newRGBA watermark_image.width watermark_image.height ⟨255, 255, 255, 0⟩)
      let h2 := layerPair.1
      let font := resolveFont env
      let bbox := rast font watermark_text
      let position := anchorPosition watermark_image.width watermark_image.height
        (bbox.right - bbox.left) (bbox.bottom - bbox.top)
      let h3 := h2.write layerPair.2
        (drawText (h2.bufs layerPair.2) position (255, 255, 255) 255 bbox)
      let compPair := h3.alloc ((h3.bufs imgPair.2).alphaComposite (h3.bufs layerPair.2))
      let h4 := compPair.1
      let resPair := h4.alloc ((h4.bufs compPair.2).convertRGB)
      (resPair.1, some resPair.2, none)

end MainApp

/-- An image fits the 400 by 400 thumbnail bound. -/
def fitsImage (img : Image) : Prop := img.width ≤ 400 ∧ img.height ≤ 400

/-- An optional image slot fits the thumbnail bound (vacuously when
empty). -/
def fitsOpt : Option Image → Prop
  | none => True
  | some img => fitsImage img

instance : (o : Option Image) → Decidable (fitsOpt o)
  | none => inferInstanceAs (Decidable True)
  | some _ => inferInstanceAs (Decidable (_ ∧ _))

/-- Every image held by the Watermark_app.py controller fits 400 by 400. -/
def WApp.stateFits (s : WApp.AppState) : Prop :=
  fitsOpt s.original_image ∧ fitsOpt s.image

/-- Every image held by the main.py controller fits 400 by 400. -/
def MainApp.stateFits (s : MainApp.AppState) : Prop := fitsOpt s.image

/-- A concrete 21 by 21 black RGB image used by the witnesses and the
counterexample. -/
def exImg : Image := ⟨Mode.RGB, 21, 21, List.replicate 441 ⟨0, 0, 0, 255⟩⟩

/-- A concrete rasterizer: every text run measures a 1 by 1 bounding box
and covers one pixel at the drawing origin with antialiased coverage 200. -/
def exRast : Rasterizer := fun _ _ => ⟨0, 0, 1, 1, [⟨0, 0, 200⟩]⟩

/-- A concrete rasterizer reporting a 60 by 1 bounding box (text wider
than the 21-pixel example image) with no covered pixels. -/
def exRastWide : Rasterizer := fun _ _ => ⟨0, 0, 60, 1, []⟩

/-- A concrete font environment in which arial.ttf is absent. -/
def exEnv : FontEnv := fun _ _ => false

/-- A concrete font environment in which arial.ttf loads. -/
def exEnvTT : FontEnv := fun _ _ => true

/-- A concrete resampling backend (pixel content irrelevant to the size
claims). -/
def exResample : Resample := fun _ _ _ => []

/-- A concrete one-buffer heap. -/
def exHeap : Heap := ⟨1, fun _ => exImg⟩

/-- A concrete Watermark_app.py state with the example image loaded. -/
def exStateW : WApp.AppState := ⟨some exImg, some exImg, (255, 255, 255), 255, "wm"⟩

/-- A concrete main.py state with the example image loaded. -/
def exStateM : MainApp.AppState := ⟨some exImg, "wm"⟩

namespace WApp

/-- On the success path (an image is loaded and the stripped text is
non-empty) add_watermark replaces self.image with the composite and shows
no dialog; all other fields are untouched. -/
theorem add_watermark_success (env : FontEnv) (rast : Rasterizer) (s : AppState)
    (orig : Image) (hl : s.original_image = some orig) (ht : pyStrip s.text_entry ≠ "") :
    add_watermark env rast s =
      ({ s with
          image :=
            some ((orig.copy.convertRGBA.alphaComposite
              (drawText (Image.newRGBA orig.width orig.height ⟨255, 255, 255, 0⟩)
                (anchorPosition orig.width orig.height
                  ((rast (resolveFont env) (pyStrip s.text_entry)).right -
                    (rast (resolveFont env) (pyStrip s.text_entry)).left)
                  ((rast (resolveFont env) (pyStrip s.text_entry)).bottom -
                    (rast (resolveFont env) (pyStrip s.text_entry)).top))
                s.text_color s.opacity_scale
                (rast (resolveFont env) (pyStrip s.text_entry)))).convertRGB) },
        none) := by
  obtain ⟨o, i, col, op, te⟩ := s
  dsimp only at hl ht ⊢
  subst hl
  simp only [add_watermark]
  rw [if_neg ht]
  rfl

end WApp

namespace MainApp

/-- On the success path add_watermark replaces self.image with the
composite (white fully opaque fill) and shows no dialog. -/
theorem add_watermark_success_main (env : FontEnv) (rast : Rasterizer) (s : AppState)
    (img : Image) (hl : s.image = some img) (ht : pyStrip s.text_entry ≠ "") :
    add_watermark env rast s =
      ({ s with
          image :=
            some ((img.convertRGBA.alphaComposite
              (drawText (Image.newRGBA img.width img.height ⟨255, 255, 255, 0⟩)
                (anchorPosition img.width img.height
                  ((rast (resolveFont env) (pyStrip s.text_entry)).right -
                    (rast (resolveFont env) (pyStrip s.text_entry)).left)
                  ((rast (resolveFont env) (pyStrip s.text_entry)).bottom -
                    (rast (resolveFont env) (pyStrip s.text_entry)).top))
                (255, 255, 255) 255
                (rast (resolveFont env) (pyStrip s.text_entry)))).convertRGB) },
        none) := by
  obtain ⟨i, te⟩ := s
  dsimp only at hl ht ⊢
  subst hl
  simp only [add_watermark]
  rw [if_neg ht]
  rfl

end MainApp

/-! Pixel-level helper lemmas. -/

/-- putPixel never changes the pixel count. -/
theorem putPixel_data_length (img : Image) (x y : Int) (p : Pixel) :
    (img.putPixel x y p).data.length = img.data.length := by
  unfold Image.putPixel
  split
  · exact List.length_set img.data _ p
  · rfl

/-- A member of l.set i b is a member of l or is b itself. -/
theorem mem_set_cases {l : List Pixel} {i : Nat} {b q : Pixel}
    (h : q ∈ l.set i b) : q ∈ l ∨ q = b := by
  induction l generalizing i with
  | nil => simp at h
  | cons a l ih =>
    cases i with
    | zero =>
      rw [List.set_cons_zero] at h
      rcases List.mem_cons.mp h with h | h
      · exact Or.inr h
      · exact Or.inl (List.mem_cons_of_mem a h)
    | succ i =>
      rw [List.set_cons_succ] at h
      rcases List.mem_cons.mp h with h | h
      · exact Or.inl (h ▸ List.mem_cons_self a l)
      · rcases ih h with h | h
        · exact Or.inl (List.mem_cons_of_mem a h)
        · exact Or.inr h

/-- putPixel with a fully transparent pixel keeps a fully transparent
image fully transparent. -/
theorem putPixel_alpha_zero (img : Image) (x y : Int) (p : Pixel)
    (hp : p.a = 0) (himg : ∀ q ∈ img.data, q.a = 0) :
    ∀ q ∈ (img.putPixel x y p).data, q.a = 0 := by
  intro q hq
  unfold Image.putPixel at hq
  split at hq
  · rcases mem_set_cases hq with h | h
    · exact himg q h
    · rw [h]; exact hp
  · exact himg q hq

/-- The drawText fold never changes the pixel count of the layer. -/
theorem foldl_put_length (pos : Int × Int) (color : Nat × Nat × Nat)
    (opacity : Nat) (cs : List CovPt) :
    ∀ l : Image,
      ((cs.foldl
        (fun im c => im.putPixel (pos.1 + c.dx) (pos.2 + c.dy) (inkPixel color opacity c.cov))
        l)).data.length = l.data.length := by
  induction cs with
  | nil => intro l; rfl
  | cons c cs ih =>
    intro l
    rw [List.foldl_cons, ih, putPixel_data_length]

/-- drawText never changes the pixel count of the layer. -/
theorem drawText_data_length (l : Image) (pos : Int × Int)
    (color : Nat × Nat × Nat) (opacity : Nat) (r : Raster) :
    (drawText l pos color opacity r).data.length = l.data.length :=
  foldl_put_length pos color opacity r.coverage l

/-- Drawing with opacity 0 puts only fully transparent ink, so a fully
transparent layer stays fully transparent (the fold, list form). -/
theorem foldl_put_alpha_zero (pos : Int × Int) (color : Nat × Nat × Nat)
    (cs : List CovPt) :
    ∀ l : Image, (∀ q ∈ l.data, q.a = 0) →
      ∀ q ∈ ((cs.foldl
        (fun im c => im.putPixel (pos.1 + c.dx) (pos.2 + c.dy) (inkPixel color 0 c.cov))
        l)).data, q.a = 0 := by
  induction cs with
  | nil => intro l hl; exact hl
  | cons c cs ih =>
    intro l hl
    rw [List.foldl_cons]
    exact ih _ (putPixel_alpha_zero _ _ _ _ (by simp [inkPixel]) hl)

/-- drawText with opacity 0 keeps a fully transparent layer fully
transparent. -/
theorem drawText_alpha_zero (l : Image) (pos : Int × Int)
    (color : Nat × Nat × Nat) (r : Raster) (hl : ∀ q ∈ l.data, q.a = 0) :
    ∀ q ∈ (drawText l pos color 0 r).data, q.a = 0 :=
  foldl_put_alpha_zero pos color r.coverage l hl

/-- Compositing a fully transparent overlay over a base (at least as long
as the base) reproduces the base pixels bit for bit: Pillow's
alpha_composite copies the destination pixel whenever the source alpha
is 0. -/
theorem zipWith_compositePixel_transparent :
    ∀ (l1 l2 : List Pixel), l1.length ≤ l2.length → (∀ p ∈ l2, p.a = 0) →
      List.zipWith compositePixel l1 l2 = l1 := by
  intro l1
  induction l1 with
  | nil => intro l2 _ _; rfl
  | cons a l1 ih =>
    intro l2 hlen ha
    cases l2 with
    | nil => simp at hlen
    | cons b l2 =>
      rw [List.zipWith_cons_cons]
      have hb : compositePixel a b = a := by
        unfold compositePixel
        rw [ha b (List.mem_cons_self b l2)]
        simp
      rw [hb, ih l2 (by simpa using hlen) (fun p hp => ha p (List.mem_cons_of_mem b hp))]

/-- Flattening the RGBA copy of an image (with its original data) gives
exactly the flattened original. -/
theorem convertRGB_convertRGBA (orig : Image) :
    (⟨Mode.RGBA, orig.width, orig.height, orig.copy.convertRGBA.data⟩ : Image).convertRGB
      = orig.convertRGB := by
  obtain ⟨m, w, hh, d⟩ := orig
  cases m
  · simp [Image.convertRGB, Image.convertRGBA, Image.copy, List.map_map, Function.comp,
      Pixel.withAlpha]
  · rfl

/-- convertRGBA preserves the pixel count. -/
theorem convertRGBA_data_length (img : Image) :
    img.convertRGBA.data.length = img.data.length := by
  obtain ⟨m, w, hh, d⟩ := img
  cases m
  · simp [Image.convertRGBA]
  · rfl

/-! Heap frame lemmas: the compositing path only allocates fresh buffers
and writes the fresh text layer; every pre-existing buffer is untouched. -/

/-- Watermark_app.py: no pre-existing buffer (the loaded original in
particular) changes across add_watermark. -/
theorem WApp.add_watermark_refs_frame (env : FontEnv) (rast : Rasterizer)
    (h : Heap) (oref : Nat) (color : Nat × Nat × Nat) (opacity : Nat)
    (entry : String) (q : Nat) (hq : q < h.next) :
    ((add_watermark_refs env rast h (some oref) color opacity entry).1).bufs q = h.bufs q := by
  by_cases hst : pyStrip entry = ""
  · simp only [add_watermark_refs]
    rw [if_pos hst]
  · simp only [add_watermark_refs, Heap.alloc, Heap.write]
    rw [if_neg hst]
    simp only []
    rw [if_neg (by omega), if_neg (by omega), if_neg (by omega), if_neg (by omega),
      if_neg (by omega), if_neg (by omega)]

/-- Watermark_app.py: the reference stored into self.image is freshly
allocated, never a pre-existing one. -/
theorem WApp.add_watermark_refs_fresh (env : FontEnv) (rast : Rasterizer)
    (h : Heap) (oref : Nat) (color : Nat × Nat × Nat) (opacity : Nat)
    (entry : String) (rr : Nat)
    (hrr : (add_watermark_refs env rast h (some oref) color opacity entry).2.1 = some rr) :
    h.next ≤ rr := by
  by_cases hst : pyStrip entry = ""
  · simp only [add_watermark_refs] at hrr
    rw [if_pos hst] at hrr
    simp at hrr
  · simp only [add_watermark_refs, Heap.alloc, Heap.write] at hrr
    rw [if_neg hst] at hrr
    simp at hrr
    omega

/-- main.py: no pre-existing buffer changes across add_watermark. -/
theorem MainApp.add_watermark_refs_frame_main (env : FontEnv) (rast : Rasterizer)
    (h : Heap) (iref : Nat) (entry : String) (q : Nat) (hq : q < h.next) :
    ((add_watermark_refs env rast h (some iref) entry).1).bufs q = h.bufs q := by
  by_cases hst : pyStrip entry = ""
  · simp only [add_watermark_refs]
    rw [if_pos hst]
  · simp only [add_watermark_refs, Heap.alloc, Heap.write]
    rw [if_neg hst]
    simp only []
    rw [if_neg (by omega), if_neg (by omega), if_neg (by omega), if_neg (by omega),
      if_neg (by omega)]

/-- main.py: the reference stored into self.image is freshly allocated. -/
theorem MainApp.add_watermark_refs_fresh_main (env : FontEnv) (rast : Rasterizer)
    (h : Heap) (iref : Nat) (entry : String) (rr : Nat)
    (hrr : (add_watermark_refs env rast h (some iref) entry).2.1 = some rr) :
    h.next ≤ rr := by
  by_cases hst : pyStrip entry = ""
  · simp only [add_watermark_refs] at hrr
    rw [if_pos hst] at hrr
    simp at hrr
  · simp only [add_watermark_refs, Heap.alloc, Heap.write] at hrr
    rw [if_neg hst] at hrr
    simp at hrr
    omega

/-! Thumbnail bound lemmas. -/

/-- round_aspect never exceeds a bound that its argument respects. -/
theorem roundAspect_le (number : ℚ) (key : Nat → ℚ) (n : Nat)
    (hn : 1 ≤ n) (h : number ≤ (n : ℚ)) : roundAspect number key ≤ n := by
  unfold roundAspect
  have hc : (⌈number⌉).toNat ≤ n := by
    rw [Int.toNat_le]
    exact Int.ceil_le.mpr (by exact_mod_cast h)
  have hf : (⌊number⌋).toNat ≤ n := by
    rw [Int.toNat_le]
    exact le_trans (Int.floor_le_ceil number) (Int.toNat_le.mp hc)
  exact max_le (by split <;> assumption) hn

/-- Image.thumbnail((400, 400)) computes a size within 400 by 400. -/
theorem thumbnailSize_le_400 (w h : Nat) :
    (thumbnailSize 400 400 w h).1 ≤ 400 ∧ (thumbnailSize 400 400 w h).2 ≤ 400 := by
  rw [thumbnailSize]
  dsimp only
  split_ifs with h1 h2
  · exact ⟨h1.1, h1.2⟩
  all_goals dsimp only
  · refine ⟨?_, le_refl 400⟩
    have h400 : ((400 : Nat) : ℚ) / ((400 : Nat) : ℚ) = 1 := by norm_num
    rw [h400] at h2
    have hb : ((400 : Nat) : ℚ) * ((w : ℚ) / (h : ℚ)) ≤ ((400 : Nat) : ℚ) :=
      calc ((400 : Nat) : ℚ) * ((w : ℚ) / (h : ℚ))
          ≤ ((400 : Nat) : ℚ) * 1 := mul_le_mul_of_nonneg_left h2 (by norm_num)
        _ = ((400 : Nat) : ℚ) := mul_one _
    exact roundAspect_le _ _ 400 (by norm_num) hb
  · refine ⟨le_refl 400, ?_⟩
    have h400 : ((400 : Nat) : ℚ) / ((400 : Nat) : ℚ) = 1 := by norm_num
    rw [h400] at h2
    have hb : ((400 : Nat) : ℚ) / ((w : ℚ) / (h : ℚ)) ≤ ((400 : Nat) : ℚ) :=
      div_le_self (by norm_num) (le_of_lt (lt_of_not_ge h2))
    exact roundAspect_le _ _ 400 (by norm_num) hb

/-- Every image coming out of pyThumbnail at target (400, 400) fits
within 400 by 400 (either it already fits, or the scaled size does). -/
theorem pyThumbnail_le_400 (resample : Resample) (img : Image) :
    (pyThumbnail resample (400, 400) img).width ≤ 400 ∧
    (pyThumbnail resample (400, 400) img).height ≤ 400 := by
  simp only [pyThumbnail]
  split
  · next hfits => exact ⟨hfits.1, hfits.2⟩
  · next hfits => exact thumbnailSize_le_400 img.width img.height

/-! Error-path unfolding lemmas and the 400-by-400 session invariant. -/

/-- Watermark_app.py add_watermark with no loaded image: error dialog,
state unchanged. -/
theorem WApp.add_watermark_no_image (env : FontEnv) (rast : Rasterizer)
    (s : WApp.AppState) (hl : s.original_image = none) :
    WApp.add_watermark env rast s = (s, some UIErr.missingImage) := by
  obtain ⟨o, i, col, op, te⟩ := s
  dsimp only at hl
  subst hl
  rfl

/-- Watermark_app.py add_watermark with whitespace-only text: error
dialog, state unchanged. -/
theorem WApp.add_watermark_blank (env : FontEnv) (rast : Rasterizer)
    (s : WApp.AppState) (orig : Image)
    (hl : s.original_image = some orig) (ht : pyStrip s.text_entry = "") :
    WApp.add_watermark env rast s = (s, some UIErr.emptyText) := by
  obtain ⟨o, i, col, op, te⟩ := s
  dsimp only at hl ht
  subst hl
  simp only [WApp.add_watermark]
  rw [if_pos ht]

/-- main.py add_watermark with no loaded image: error dialog, state
unchanged. -/
theorem MainApp.add_watermark_no_image_main (env : FontEnv) (rast : Rasterizer)
    (s : MainApp.AppState) (hl : s.image = none) :
    MainApp.add_watermark env rast s = (s, some UIErr.missingImage) := by
  obtain ⟨i, te⟩ := s
  dsimp only at hl
  subst hl
  rfl

/-- main.py add_watermark with whitespace-only text: error dialog, state
unchanged. -/
theorem MainApp.add_watermark_blank_main (env : FontEnv) (rast : Rasterizer)
    (s : MainApp.AppState) (img : Image)
    (hl : s.image = some img) (ht : pyStrip s.text_entry = "") :
    MainApp.add_watermark env rast s = (s, some UIErr.emptyText) := by
  obtain ⟨i, te⟩ := s
  dsimp only at hl ht
  subst hl
  simp only [MainApp.add_watermark]
  rw [if_pos ht]

/-- add_watermark keeps every Watermark_app.py controller image within
400 by 400 (the composite inherits the loaded original's size). -/
theorem WApp.add_watermark_fits (env : FontEnv) (rast : Rasterizer)
    (s : WApp.AppState) (hs : WApp.stateFits s) :
    WApp.stateFits (WApp.add_watermark env rast s).1 := by
  cases hl : s.original_image with
  | none => rw [WApp.add_watermark_no_image env rast s hl]; exact hs
  | some orig =>
    by_cases ht : pyStrip s.text_entry = ""
    · rw [WApp.add_watermark_blank env rast s orig hl ht]; exact hs
    · rw [WApp.add_watermark_success env rast s orig hl ht]
      have horig : fitsImage orig := by
        have h1 : fitsOpt s.original_image := hs.1
        rw [hl] at h1
        exact h1
      exact ⟨hs.1, horig.1, horig.2⟩

/-- add_watermark keeps the main.py controller image within 400 by 400. -/
theorem MainApp.add_watermark_fits_main (env : FontEnv) (rast : Rasterizer)
    (s : MainApp.AppState) (hs : MainApp.stateFits s) :
    MainApp.stateFits (MainApp.add_watermark env rast s).1 := by
  cases hl : s.image with
  | none => rw [MainApp.add_watermark_no_image_main env rast s hl]; exact hs
  | some img =>
    by_cases ht : pyStrip s.text_entry = ""
    · rw [MainApp.add_watermark_blank_main env rast s img hl ht]; exact hs
    · rw [MainApp.add_watermark_success_main env rast s img hl ht]
      have himg : fitsImage img := by
        have h1 : fitsOpt s.image := hs
        rw [hl] at h1
        exact h1
      exact ⟨himg.1, himg.2⟩

/-- Every Watermark_app.py UI event preserves the 400-by-400 bound. -/
theorem WApp.step_fits (env : FontEnv) (rast : Rasterizer) (resample : Resample)
    (s : WApp.AppState) (e : WApp.Event) (hs : WApp.stateFits s) :
    WApp.stateFits (WApp.step env rast resample s e) := by
  cases e with
  | upload file =>
    cases file with
    | none => exact hs
    | some f =>
      exact ⟨⟨(pyThumbnail_le_400 resample f).1, (pyThumbnail_le_400 resample f).2⟩,
        ⟨(pyThumbnail_le_400 resample f).1, (pyThumbnail_le_400 resample f).2⟩⟩
  | chooseColor c =>
    cases c with
    | none => exact hs
    | some col => exact hs
  | setOpacity n => exact hs
  | setText t => exact hs
  | watermark => exact WApp.add_watermark_fits env rast s hs
  | save => exact hs

/-- Every main.py UI event preserves the 400-by-400 bound. -/
theorem MainApp.step_fits_main (env : FontEnv) (rast : Rasterizer) (resample : Resample)
    (s : MainApp.AppState) (e : MainApp.Event) (hs : MainApp.stateFits s) :
    MainApp.stateFits (MainApp.step env rast resample s e) := by
  cases e with
  | upload file =>
    cases file with
    | none => exact hs
    | some f =>
      exact ⟨(pyThumbnail_le_400 resample f).1, (pyThumbnail_le_400 resample f).2⟩
  | setText t => exact hs
  | watermark => exact MainApp.add_watermark_fits_main env rast s hs
  | save => exact hs

/-- Folding UI events preserves the bound (Watermark_app.py). -/
theorem WApp.foldl_step_fits (env : FontEnv) (rast : Rasterizer)
    (resample : Resample) (evs : List WApp.Event) :
    ∀ s : WApp.AppState, WApp.stateFits s →
      WApp.stateFits (evs.foldl (WApp.step env rast resample) s) := by
  induction evs with
  | nil => intro s hs; exact hs
  | cons e es ih =>
    intro s hs
    exact ih _ (WApp.step_fits env rast resample s e hs)

/-- Folding UI events preserves the bound (main.py). -/
theorem MainApp.foldl_step_fits_main (env : FontEnv) (rast : Rasterizer)
    (resample : Resample) (evs : List MainApp.Event) :
    ∀ s : MainApp.AppState, MainApp.stateFits s →
      MainApp.stateFits (evs.foldl (MainApp.step env rast resample) s) := by
  induction evs with
  | nil => intro s hs; exact hs
  | cons e es ih =>
    intro s hs
    exact ih _ (MainApp.step_fits_main env rast resample s e hs)

/-- Every reachable Watermark_app.py state fits 400 by 400. -/
theorem WApp.run_fits (env : FontEnv) (rast : Rasterizer) (resample : Resample)
    (evs : List WApp.Event) : WApp.stateFits (WApp.run env rast resample evs) :=
  WApp.foldl_step_fits env rast resample evs WApp.init ⟨trivial, trivial⟩

/-- Every reachable main.py state fits 400 by 400. -/
theorem MainApp.run_fits_main (env : FontEnv) (rast : Rasterizer) (resample : Resample)
    (evs : List MainApp.Event) : MainApp.stateFits (MainApp.run env rast resample evs) :=
  MainApp.foldl_step_fits_main env rast resample evs MainApp.init trivial


/-! The claims. -/

/-- C1: the watermark-compositing operation never mutates its input
image.  In the buffer-heap model of both variants' add_watermark, every
pre-existing buffer (the loaded source in particular) is unchanged after
the call, and any reference stored into self.image is freshly allocated,
so the compositor returns a new image and preserves the original for
repeated edits. -/
theorem c1_compositor_never_mutates_source (env : FontEnv) (rast : Rasterizer)
    (h : Heap) (oref : Nat) (color : Nat × Nat × Nat) (opacity : Nat)
    (entry : String) :
    (∀ q, q < h.next →
      ((WApp.add_watermark_refs env rast h (some oref) color opacity entry).1).bufs q
        = h.bufs q) ∧
    (∀ rr, (WApp.add_watermark_refs env rast h (some oref) color opacity entry).2.1
        = some rr → h.next ≤ rr) ∧
    (∀ q, q < h.next →
      ((MainApp.add_watermark_refs env rast h (some oref) entry).1).bufs q = h.bufs q) ∧
    (∀ rr, (MainApp.add_watermark_refs env rast h (some oref) entry).2.1 = some rr →
      h.next ≤ rr) :=
  ⟨fun q hq => WApp.add_watermark_refs_frame env rast h oref color opacity entry q hq,
   fun rr hrr => WApp.add_watermark_refs_fresh env rast h oref color opacity entry rr hrr,
   fun q hq => MainApp.add_watermark_refs_frame_main env rast h oref entry q hq,
   fun rr hrr => MainApp.add_watermark_refs_fresh_main env rast h oref entry rr hrr⟩

/-- C1 witness at a concrete one-buffer heap: buffer 0 is untouched and
the result references (5 and 4) are fresh. -/
theorem c1_witness :
    ((WApp.add_watermark_refs exEnv exRast exHeap (some 0) (255, 255, 255) 255 "wm").1).bufs 0
        = exHeap.bufs 0 ∧
    exHeap.next ≤ 5 ∧
    ((MainApp.add_watermark_refs exEnv exRast exHeap (some 0) "wm").1).bufs 0 = exHeap.bufs 0 ∧
    exHeap.next ≤ 4 := by
  obtain ⟨f1, f2, f3, f4⟩ :=
    c1_compositor_never_mutates_source exEnv exRast exHeap 0 (255, 255, 255) 255 "wm"
  exact ⟨f1 0 (by decide), f2 5 (by decide), f3 0 (by decide), f4 4 (by decide)⟩

/-- C2: for every RGB or RGBA source image and every non-empty watermark
text, the composite produced by add_watermark has the same width and
height as the source, in both variants. -/
theorem c2_composite_preserves_size (env : FontEnv) (rast : Rasterizer)
    (sW : WApp.AppState) (orig : Image) (sM : MainApp.AppState) (img : Image)
    (hlW : sW.original_image = some orig) (htW : pyStrip sW.text_entry ≠ "")
    (hlM : sM.image = some img) (htM : pyStrip sM.text_entry ≠ "") :
    (((WApp.add_watermark env rast sW).1).image.map fun i => (i.width, i.height))
        = some (orig.width, orig.height) ∧
    (((MainApp.add_watermark env rast sM).1).image.map fun i => (i.width, i.height))
        = some (img.width, img.height) := by
  rw [WApp.add_watermark_success env rast sW orig hlW htW,
    MainApp.add_watermark_success_main env rast sM img hlM htM]
  exact ⟨rfl, rfl⟩

/-- C2 witness at the concrete 21 by 21 image. -/
theorem c2_witness :
    (((WApp.add_watermark exEnv exRast exStateW).1).image.map fun i => (i.width, i.height))
        = some (exImg.width, exImg.height) ∧
    (((MainApp.add_watermark exEnv exRast exStateM).1).image.map fun i => (i.width, i.height))
        = some (exImg.width, exImg.height) :=
  c2_composite_preserves_size exEnv exRast exStateW exImg exStateM exImg rfl (by decide)
    rfl (by decide)

/-- C3: the anchor is exactly (W - textWidth - 20, H - textHeight - 20)
with no clamping; when the text is wider than W - 20 the x coordinate is
negative, and the operation still succeeds and stores a result image. -/
theorem c3_anchor_formula_unclamped (env : FontEnv) (rast : Rasterizer)
    (sW : WApp.AppState) (orig : Image) (bbox : Raster)
    (hl : sW.original_image = some orig) (ht : pyStrip sW.text_entry ≠ "")
    (hb : bbox = rast (resolveFont env) (pyStrip sW.text_entry)) :
    anchorPosition orig.width orig.height (bbox.right - bbox.left) (bbox.bottom - bbox.top)
        = ((orig.width : Int) - (bbox.right - bbox.left) - 20,
           (orig.height : Int) - (bbox.bottom - bbox.top) - 20) ∧
    ((orig.width : Int) - 20 < bbox.right - bbox.left →
      (anchorPosition orig.width orig.height (bbox.right - bbox.left)
        (bbox.bottom - bbox.top)).1 < 0) ∧
    (WApp.add_watermark env rast sW).2 = none ∧
    ((WApp.add_watermark env rast sW).1).image.isSome = true := by
  refine ⟨rfl, ?_, ?_, ?_⟩
  · intro hwide
    simp only [anchorPosition]
    omega
  · rw [WApp.add_watermark_success env rast sW orig hl ht]
  · rw [WApp.add_watermark_success env rast sW orig hl ht]
    rfl

/-- C3 witness: a 60-wide text run on the 21-wide image anchors at a
negative x and the operation still succeeds. -/
theorem c3_witness :
    (anchorPosition 21 21 60 1).1 < 0 ∧
    (WApp.add_watermark exEnvTT exRastWide exStateW).2 = none := by
  obtain ⟨-, h2, h3, -⟩ := c3_anchor_formula_unclamped exEnvTT exRastWide exStateW exImg
    (exRastWide (resolveFont exEnvTT) (pyStrip exStateW.text_entry)) rfl (by decide) rfl
  exact ⟨h2 (by decide), h3⟩

/-- Compositing the text layer drawn at opacity 0 over the RGBA copy and
flattening reproduces the flattened source exactly. -/
theorem composite_opacity_zero (orig : Image) (pos : Int × Int)
    (color : Nat × Nat × Nat) (bbox : Raster)
    (hwf : orig.data.length = orig.width * orig.height) :
    (orig.copy.convertRGBA.alphaComposite
      (drawText (Image.newRGBA orig.width orig.height ⟨255, 255, 255, 0⟩)
        pos color 0 bbox)).convertRGB = orig.convertRGB := by
  have hlayer0 : ∀ q ∈ (Image.newRGBA orig.width orig.height
      (⟨255, 255, 255, 0⟩ : Pixel)).data, q.a = 0 := by
    intro q hq
    rw [List.eq_of_mem_replicate hq]
  have halpha := drawText_alpha_zero _ pos color bbox hlayer0
  have hlen : orig.copy.convertRGBA.data.length ≤
      (drawText (Image.newRGBA orig.width orig.height ⟨255, 255, 255, 0⟩)
        pos color 0 bbox).data.length := by
    rw [drawText_data_length, convertRGBA_data_length]
    simp [Image.copy, Image.newRGBA, hwf]
  have hcomp := zipWith_compositePixel_transparent orig.copy.convertRGBA.data _ hlen halpha
  unfold Image.alphaComposite
  rw [hcomp]
  exact convertRGB_convertRGBA orig

/-- C4: invoking add_watermark with opacity 0 yields exactly the source
image flattened to RGB with its alpha channel dropped. -/
theorem c4_opacity_zero_flatten (env : FontEnv) (rast : Rasterizer)
    (s : WApp.AppState) (orig : Image)
    (hl : s.original_image = some orig)
    (hwf : orig.data.length = orig.width * orig.height)
    (hop : s.opacity_scale = 0) (ht : pyStrip s.text_entry ≠ "") :
    ((WApp.add_watermark env rast s).1).image = some orig.convertRGB := by
  rw [WApp.add_watermark_success env rast s orig hl ht, hop]
  exact congrArg some (composite_opacity_zero orig
    (anchorPosition orig.width orig.height
      ((rast (resolveFont env) (pyStrip s.text_entry)).right -
        (rast (resolveFont env) (pyStrip s.text_entry)).left)
      ((rast (resolveFont env) (pyStrip s.text_entry)).bottom -
        (rast (resolveFont env) (pyStrip s.text_entry)).top))
    s.text_color (rast (resolveFont env) (pyStrip s.text_entry)) hwf)

/-- The concrete example image is well formed: 441 pixels for 21 by 21. -/
theorem exImg_wf : exImg.data.length = exImg.width * exImg.height := by
  show (List.replicate 441 (⟨0, 0, 0, 255⟩ : Pixel)).length = 21 * 21
  rw [List.length_replicate]

/-- C4 witness at the concrete image and a concrete opacity-0 state. -/
theorem c4_witness :
    ((WApp.add_watermark exEnv exRast
      (⟨some exImg, some exImg, (255, 255, 255), 0, "wm"⟩ : WApp.AppState)).1).image
        = some exImg.convertRGB :=
  c4_opacity_zero_flatten exEnv exRast _ exImg rfl exImg_wf rfl (by decide)

/-- C5: invoking the watermark action with blank or whitespace-only text
(while an image is displayed) surfaces the empty-text error dialog and
leaves the state, in particular the displayed image, unchanged, in both
variants. -/
theorem c5_whitespace_text_error (env : FontEnv) (rast : Rasterizer)
    (sW : WApp.AppState) (orig : Image) (sM : MainApp.AppState) (img : Image)
    (hlW : sW.original_image = some orig) (htW : pyStrip sW.text_entry = "")
    (hlM : sM.image = some img) (htM : pyStrip sM.text_entry = "") :
    WApp.add_watermark env rast sW = (sW, some UIErr.emptyText) ∧
    MainApp.add_watermark env rast sM = (sM, some UIErr.emptyText) :=
  ⟨WApp.add_watermark_blank env rast sW orig hlW htW,
   MainApp.add_watermark_blank_main env rast sM img hlM htM⟩

/-- C5 witness with whitespace-only entry text. -/
theorem c5_witness :
    WApp.add_watermark exEnv exRast
        (⟨some exImg, some exImg, (255, 255, 255), 255, "   "⟩ : WApp.AppState)
      = ((⟨some exImg, some exImg, (255, 255, 255), 255, "   "⟩ : WApp.AppState),
         some UIErr.emptyText) ∧
    MainApp.add_watermark exEnv exRast (⟨some exImg, "   "⟩ : MainApp.AppState)
      = ((⟨some exImg, "   "⟩ : MainApp.AppState), some UIErr.emptyText) :=
  c5_whitespace_text_error exEnv exRast _ exImg _ exImg rfl (by decide) rfl (by decide)

/-- C6: invoking the watermark or save action before any image is loaded
surfaces the missing-image error dialog, changes no state, and produces
no image, in both variants. -/
theorem c6_missing_image_error (env : FontEnv) (rast : Rasterizer)
    (sW : WApp.AppState) (sM : MainApp.AppState)
    (hoW : sW.original_image = none) (hiW : sW.image = none) (hiM : sM.image = none) :
    WApp.add_watermark env rast sW = (sW, some UIErr.missingImage) ∧
    WApp.save_image sW = Except.error UIErr.missingImage ∧
    MainApp.add_watermark env rast sM = (sM, some UIErr.missingImage) ∧
    MainApp.save_image sM = Except.error UIErr.missingImage := by
  refine ⟨WApp.add_watermark_no_image env rast sW hoW, ?_,
    MainApp.add_watermark_no_image_main env rast sM hiM, ?_⟩
  · simp only [WApp.save_image, hiW]
  · simp only [MainApp.save_image, hiM]

/-- C6 witness at the initial (nothing loaded) states. -/
theorem c6_witness :
    WApp.add_watermark exEnv exRast WApp.init = (WApp.init, some UIErr.missingImage) ∧
    WApp.save_image WApp.init = Except.error UIErr.missingImage ∧
    MainApp.add_watermark exEnv exRast MainApp.init
      = (MainApp.init, some UIErr.missingImage) ∧
    MainApp.save_image MainApp.init = Except.error UIErr.missingImage :=
  c6_missing_image_error exEnv exRast WApp.init MainApp.init rfl rfl rfl

/-- C7: font resolution tries the named truetype font at point size 30
and falls back to the built-in default bitmap font when it is absent;
the fallback never raises, so add_watermark succeeds under every font
environment, in both variants. -/
theorem c7_font_fallback_total (env : FontEnv) (rast : Rasterizer)
    (sW : WApp.AppState) (orig : Image) (sM : MainApp.AppState) (img : Image)
    (hlW : sW.original_image = some orig) (htW : pyStrip sW.text_entry ≠ "")
    (hlM : sM.image = some img) (htM : pyStrip sM.text_entry ≠ "") :
    (env "arial.ttf" 30 = true → resolveFont env = Font.truetype "arial.ttf" 30) ∧
    (env "arial.ttf" 30 = false → resolveFont env = Font.defaultBitmap) ∧
    (WApp.add_watermark env rast sW).2 = none ∧
    (MainApp.add_watermark env rast sM).2 = none := by
  refine ⟨?_, ?_, ?_, ?_⟩
  · intro htt
    simp [resolveFont, htt]
  · intro htt
    simp [resolveFont, htt]
  · rw [WApp.add_watermark_success env rast sW orig hlW htW]
  · rw [MainApp.add_watermark_success_main env rast sM img hlM htM]

/-- C7 witness under the environment where arial.ttf is absent. -/
theorem c7_witness :
    resolveFont exEnv = Font.defaultBitmap ∧
    (WApp.add_watermark exEnv exRast exStateW).2 = none ∧
    (MainApp.add_watermark exEnv exRast exStateM).2 = none := by
  obtain ⟨-, f2, f3, f4⟩ := c7_font_fallback_total exEnv exRast exStateW exImg exStateM exImg
    rfl (by decide) rfl (by decide)
  exact ⟨f2 rfl, f3, f4⟩

/-- C8: the compositing operation is deterministic and reads only the
source image, entry text, color, opacity and resolved font: two states
agreeing on those (whatever their other fields, such as the currently
displayed image) produce identical result images and identical dialogs,
in both variants. -/
theorem c8_composite_deterministic (env : FontEnv) (rast : Rasterizer)
    (s1 s2 : WApp.AppState) (orig : Image) (t1 t2 : MainApp.AppState) (img : Image)
    (h1 : s1.original_image = some orig) (h2 : s2.original_image = some orig)
    (hte : s1.text_entry = s2.text_entry) (hco : s1.text_color = s2.text_color)
    (hop : s1.opacity_scale = s2.opacity_scale) (hne : pyStrip s1.text_entry ≠ "")
    (m1 : t1.image = some img) (m2 : t2.image = some img)
    (mte : t1.text_entry = t2.text_entry) (mne : pyStrip t1.text_entry ≠ "") :
    ((WApp.add_watermark env rast s1).1).image = ((WApp.add_watermark env rast s2).1).image ∧
    (WApp.add_watermark env rast s1).2 = (WApp.add_watermark env rast s2).2 ∧
    ((MainApp.add_watermark env rast t1).1).image
        = ((MainApp.add_watermark env rast t2).1).image ∧
    (MainApp.add_watermark env rast t1).2 = (MainApp.add_watermark env rast t2).2 := by
  rw [WApp.add_watermark_success env rast s1 orig h1 hne,
    WApp.add_watermark_success env rast s2 orig h2 (hte ▸ hne),
    MainApp.add_watermark_success_main env rast t1 img m1 mne,
    MainApp.add_watermark_success_main env rast t2 img m2 (mte ▸ mne),
    hte, hco, hop, mte]
  exact ⟨rfl, rfl, rfl, rfl⟩

/-- C8 witness: two Watermark_app.py states differing only in the
displayed image, and two identical main.py states. -/
theorem c8_witness :
    ((WApp.add_watermark exEnv exRast exStateW).1).image
        = ((WApp.add_watermark exEnv exRast
            (⟨some exImg, none, (255, 255, 255), 255, "wm"⟩ : WApp.AppState)).1).image ∧
    (WApp.add_watermark exEnv exRast exStateW).2
        = (WApp.add_watermark exEnv exRast
            (⟨some exImg, none, (255, 255, 255), 255, "wm"⟩ : WApp.AppState)).2 ∧
    ((MainApp.add_watermark exEnv exRast exStateM).1).image
        = ((MainApp.add_watermark exEnv exRast exStateM).1).image ∧
    (MainApp.add_watermark exEnv exRast exStateM).2
        = (MainApp.add_watermark exEnv exRast exStateM).2 :=
  c8_composite_deterministic exEnv exRast exStateW _ exImg exStateM exStateM exImg
    rfl rfl rfl rfl rfl (by decide) rfl rfl rfl (by decide)

/-- C9 counterexample: with the same loaded 21 by 21 black image and the
same text, white color and opacity 255, the SECOND invocation of
add_watermark differs between the two variants: main.py composites over
its own previous output (the antialiased edge pixel whitens from 200 to
243), while Watermark_app.py recomposites over the preserved original. -/
theorem c9_counterexample :
    ((WApp.add_watermark exEnv exRast ((WApp.add_watermark exEnv exRast exStateW).1)).1).image ≠
    ((MainApp.add_watermark exEnv exRast
        ((MainApp.add_watermark exEnv exRast exStateM).1)).1).image := by
  decide

/-- C9 amended: with the same loaded image and the same text, white color
and opacity 255, the two variants produce the same result image and the
same dialog on the first invocation; repeated invocations can differ
because main.py composites over its own previous output. -/
theorem c9_first_invocation_agrees (env : FontEnv) (rast : Rasterizer)
    (sW : WApp.AppState) (sM : MainApp.AppState) (img : Image)
    (hlW : sW.original_image = some img) (hlM : sM.image = some img)
    (hte : sW.text_entry = sM.text_entry) (hne : pyStrip sW.text_entry ≠ "")
    (hcol : sW.text_color = (255, 255, 255)) (hop : sW.opacity_scale = 255) :
    ((WApp.add_watermark env rast sW).1).image = ((MainApp.add_watermark env rast sM).1).image ∧
    (WApp.add_watermark env rast sW).2 = (MainApp.add_watermark env rast sM).2 := by
  rw [WApp.add_watermark_success env rast sW img hlW hne,
    MainApp.add_watermark_success_main env rast sM img hlM (hte ▸ hne),
    hte, hcol, hop]
  exact ⟨rfl, rfl⟩

/-- C9 witness: first invocations agree at the concrete states. -/
theorem c9_witness :
    ((WApp.add_watermark exEnv exRast exStateW).1).image
        = ((MainApp.add_watermark exEnv exRast exStateM).1).image ∧
    (WApp.add_watermark exEnv exRast exStateW).2
        = (MainApp.add_watermark exEnv exRast exStateM).2 :=
  c9_first_invocation_agrees exEnv exRast exStateW exStateM exImg rfl rfl rfl (by decide)
    rfl rfl

/-- C10: in any UI session whose uploads carry decoded (positively sized)
rasters, every image the controller holds, every image the watermark
action composites over, and every image handed to save fits within 400
by 400, in both variants. -/
theorem c10_thumbnail_bound_invariant (env : FontEnv) (rast : Rasterizer)
    (resample : Resample) (evsW : List WApp.Event) (evsM : List MainApp.Event)
    (hgW : ∀ e ∈ evsW, WApp.goodEvent e) (hgM : ∀ e ∈ evsM, MainApp.goodEvent e) :
    WApp.stateFits (WApp.run env rast resample evsW) ∧
    (∀ img, WApp.save_image (WApp.run env rast resample evsW) = Except.ok img →
      img.width ≤ 400 ∧ img.height ≤ 400) ∧
    MainApp.stateFits (MainApp.run env rast resample evsM) ∧
    (∀ img, MainApp.save_image (MainApp.run env rast resample evsM) = Except.ok img →
      img.width ≤ 400 ∧ img.height ≤ 400) := by
  refine ⟨WApp.run_fits env rast resample evsW, ?_,
    MainApp.run_fits_main env rast resample evsM, ?_⟩
  · intro img hsave
    have hfits : fitsOpt (WApp.run env rast resample evsW).image :=
      (WApp.run_fits env rast resample evsW).2
    cases himg : (WApp.run env rast resample evsW).image with
    | none =>
      simp only [WApp.save_image, himg] at hsave
      exact Except.noConfusion hsave
    | some i =>
      simp only [WApp.save_image, himg, Except.ok.injEq] at hsave
      rw [himg] at hfits
      subst hsave
      exact ⟨hfits.1, hfits.2⟩
  · intro img hsave
    have hfits : fitsOpt (MainApp.run env rast resample evsM).image :=
      MainApp.run_fits_main env rast resample evsM
    cases himg : (MainApp.run env rast resample evsM).image with
    | none =>
      simp only [MainApp.save_image, himg] at hsave
      exact Except.noConfusion hsave
    | some i =>
      simp only [MainApp.save_image, himg, Except.ok.injEq] at hsave
      rw [himg] at hfits
      subst hsave
      exact ⟨hfits.1, hfits.2⟩

/-- C10 witness: a session uploading a 500 by 600 raster and
watermarking it. -/
theorem c10_witness :
    WApp.stateFits (WApp.run exEnv exRast exResample
      [WApp.Event.upload (some ⟨Mode.RGB, 500, 600, []⟩), WApp.Event.watermark]) ∧
    MainApp.stateFits (MainApp.run exEnv exRast exResample
      [MainApp.Event.upload (some ⟨Mode.RGB, 500, 600, []⟩), MainApp.Event.watermark]) := by
  obtain ⟨f1, -, f3, -⟩ := c10_thumbnail_bound_invariant exEnv exRast exResample
    [WApp.Event.upload (some ⟨Mode.RGB, 500, 600, []⟩), WApp.Event.watermark]
    [MainApp.Event.upload (some ⟨Mode.RGB, 500, 600, []⟩), MainApp.Event.watermark]
    (by decide) (by decide)
  exact ⟨f1, f3⟩

end WM
